import Mathlib

/-!
Verification of `src/context/context_manager.py` and
`src/context/mcp_knowledge_graph.py` of the notes-mgr-2 repository.

Python strings are modelled as lists of characters (`Text`), Python ints
that stay non-negative as `Nat`, and the one loop counter that can go
negative as `Int`.  Python's float expression `int(budget * (max_tokens /
total_budget))` is modelled by exact rational truncation
`budget * max_tokens / total_budget` in `Nat`; for every value reached in
the theorems below the float computation is exact, so the models agree.
-/

namespace NotesMgr

/-- Python `str` modelled as a list of code points. -/
abbrev Text := List Char

/-- Function `estimate_tokens` (context_manager.py line 55): `len(text) // 4`. -/
def estimate_tokens (text : Text) : Nat :=
  text.length / 4

/-- The literal `"\n\n[Content truncated due to token budget]"`
appended by the sectionless branch of `truncate_to_token_budget`. -/
def contentMarker : Text :=
  ("\n\n[Content truncated due to token budget]").toList

/-- The literal `"\n\n[Section truncated due to token budget]\n\n"`
appended when a section is cut to fit the remaining budget. -/
def sectionMarker : Text :=
  ("\n\n[Section truncated due to token budget]\n\n").toList

/-- Python `text.split('\n')`, split as (first line, remaining lines). -/
def splitNl : Text → Text × List Text
  | [] => ([], [])
  | c :: rest =>
    if c = '\n' then ([], (splitNl rest).1 :: (splitNl rest).2)
    else (c :: (splitNl rest).1, (splitNl rest).2)

/-- Python `text.split('\n')`: the (never empty) list of lines. -/
def pySplitLines (l : Text) : List Text :=
  (splitNl l).1 :: (splitNl l).2

/-- One section dict of `truncate_to_token_budget`
(`{"title": ..., "content": ..., "priority": ...}`). -/
structure MdSection where
  title : Text
  content : Text
  priority : Nat
deriving DecidableEq

/-- Python `line.startswith('## ')`. -/
def isHeaderLine (line : Text) : Bool :=
  (['#', '#', ' '] : Text).isPrefixOf line

/-- Python `str.strip()`: drop whitespace from both ends. -/
def pyStrip (l : Text) : Text :=
  ((l.dropWhile Char.isWhitespace).reverse.dropWhile Char.isWhitespace).reverse

/-- The section-splitting loop of `truncate_to_token_budget`
(context_manager.py lines 82-98): `cur` is the section under
construction; a `## ` line emits `cur` and opens a new section with
priority 2 when its stripped title is in `preserve`, else 1. -/
def buildSections (preserve : List Text) : List Text → MdSection → List MdSection
  | [], cur => [cur]
  | line :: rest, cur =>
    if isHeaderLine line then
      let title := pyStrip (line.drop 3)
      let pri : Nat := if title ∈ preserve then 2 else 1
      cur :: buildSections preserve rest ⟨title, line ++ ['\n'], pri⟩
    else
      buildSections preserve rest ⟨cur.title, cur.content ++ line ++ ['\n'], cur.priority⟩

/-- Sections of `text`, starting from the `{"title": "Header", "content":
"", "priority": 0}` preamble accumulator. -/
def splitSections (text : Text) (preserve : List Text) : List MdSection :=
  buildSections preserve (pySplitLines text) ⟨("Header").toList, [], 0⟩

/-- Python `sections.sort(key=lambda x: x["priority"], reverse=True)`
(context_manager.py line 101).  `list.sort` is stable and every priority
assigned by the splitting loop is 0, 1 or 2, so the sorted list is the
priority-2 bucket, then the priority-1 bucket, then the priority-0
bucket, each in original document order. -/
def pySortByPriorityDesc (l : List MdSection) : List MdSection :=
  l.filter (fun s => s.priority == 2) ++ l.filter (fun s => s.priority == 1)
    ++ l.filter (fun s => s.priority == 0)

/-- One pass of `truncate_to_token_budget` (lines 107-146): walk the
bucket, appending whole sections that fit; the first section that does
not fit is cut to `remaining_budget * 4` characters, the marker is
appended, the budget is zeroed and the loop breaks. -/
def passBucket : List MdSection → Text → Nat → Text × Nat
  | [], res, rem => (res, rem)
  | s :: rest, res, rem =>
    let t := estimate_tokens s.content
    if t ≤ rem then passBucket rest (res ++ s.content) (rem - t)
    else (res ++ s.content.take (rem * 4) ++ sectionMarker, 0)

/-- The `if remaining_budget > 0:` guard in front of the second and
third passes (lines 121, 135): run the pass only when budget remains. -/
def passOpt (l : List MdSection) (p : Text × Nat) : Text × Nat :=
  if p.2 > 0 then passBucket l p.1 p.2 else p

/-- The three bucket passes of lines 104-146: first the priority-2
sections, then (budget permitting) the priority-1 sections, then the
priority-0 sections. -/
def threePasses (l2 l1 l0 : List MdSection) (budget : Nat) : Text :=
  (passOpt l0 (passOpt l1 (passBucket l2 [] budget))).1

/-- Function `truncate_to_token_budget` (context_manager.py lines 60-148).
`preserve = []` covers both Python `None` and an empty list (both falsy). -/
def truncate_to_token_budget (text : Text) (budget : Nat) (preserve : List Text) : Text :=
  if estimate_tokens text ≤ budget then text
  else if preserve = [] then text.take (budget * 4) ++ contentMarker
  else
    let sorted := pySortByPriorityDesc (splitSections text preserve)
    threePasses (sorted.filter (fun s => s.priority == 2))
      (sorted.filter (fun s => s.priority == 1))
      (sorted.filter (fun s => s.priority == 0)) budget

/-- Modelled from the spec: the bucket-ordered truncation the spec
describes for `truncate_to_token_budget` — process the Preserved, Normal
and Preamble buckets strictly in that order, each bucket in original
document order, with no sorting step.  Compared against
`truncate_to_token_budget` in the C4 theorem. -/
def specTruncateByBuckets (text : Text) (budget : Nat) (preserve : List Text) : Text :=
  if estimate_tokens text ≤ budget then text
  else if preserve = [] then text.take (budget * 4) ++ contentMarker
  else
    let secs := splitSections text preserve
    threePasses (secs.filter (fun s => s.priority == 2))
      (secs.filter (fun s => s.priority == 1))
      (secs.filter (fun s => s.priority == 0)) budget

/-! ### Token budget allocation (context_manager.py lines 20-42, 299-322) -/

/-- One value of `DEFAULT_TOKEN_BUDGETS` (context_manager.py lines 20-42). -/
structure TokenBudgets where
  readme : Nat
  architecture : Nat
  glossary : Nat
  snapshots : Nat
  total : Nat
deriving DecidableEq

/-- Lookup `DEFAULT_TOKEN_BUDGETS.get(detail_level, DEFAULT_TOKEN_BUDGETS["standard"])`
(line 300): the three table rows, any other key falling back to standard. -/
def defaultTokenBudgets (detail_level : String) : TokenBudgets :=
  if detail_level = "minimal" then ⟨500, 1000, 500, 1000, 3000⟩
  else if detail_level = "standard" then ⟨1000, 2000, 1000, 4000, 8000⟩
  else if detail_level = "comprehensive" then ⟨2000, 3000, 2000, 8000, 15000⟩
  else ⟨1000, 2000, 1000, 4000, 8000⟩

/-- Focus-area adjustment (lines 303-312): double the focused component.
`int(b * 2.0)` is exactly `2 * b`.  Python `if focus_area:` treats the
empty string as falsy; `some ""` matches no branch, so both agree. -/
def applyFocus (focus_area : Option String) (b : TokenBudgets) : TokenBudgets :=
  match focus_area with
  | none => b
  | some fa =>
    if fa = "general" then { b with readme := b.readme * 2 }
    else if fa = "architecture" then { b with architecture := b.architecture * 2 }
    else if fa = "knowledge_graph" ∨ fa = "workflow" ∨ fa = "agent" then
      { b with snapshots := b.snapshots * 2 }
    else b

/-- Five-field sum: Python `sum(token_budgets.values())` (line 315),
which includes the stored `total` field. -/
def valuesSum (b : TokenBudgets) : Nat :=
  b.readme + b.architecture + b.glossary + b.snapshots + b.total

/-- Sum of the four component allowances (the quantity the spec's cap
invariant speaks about). -/
def componentSum (b : TokenBudgets) : Nat :=
  b.readme + b.architecture + b.glossary + b.snapshots

/-- The capping step (lines 314-322): when `sum(values) > max_tokens`,
every non-`total` entry is scaled by `max_tokens / sum(values)` with
truncation, and `total` is set to the literal `max_tokens`. -/
def capBudgets (max_tokens : Nat) (b : TokenBudgets) : TokenBudgets :=
  let total_budget := valuesSum b
  if max_tokens < total_budget then
    { readme := b.readme * max_tokens / total_budget
      architecture := b.architecture * max_tokens / total_budget
      glossary := b.glossary * max_tokens / total_budget
      snapshots := b.snapshots * max_tokens / total_budget
      total := max_tokens }
  else b

/-- The budget-adjustment prologue of `load_project_context`
(lines 299-322) as a function of its inputs, for a call made on the
pristine default table. -/
def allocate (detail_level : String) (focus_area : Option String) (max_tokens : Nat) :
    TokenBudgets :=
  capBudgets max_tokens (applyFocus focus_area (defaultTokenBudgets detail_level))

/-! ### The mutable default table (the Python aliasing of line 300) -/

/-- The module-level `DEFAULT_TOKEN_BUDGETS` dict: three mutable rows. -/
structure BudgetTable where
  minimal : TokenBudgets
  standard : TokenBudgets
  comprehensive : TokenBudgets
deriving DecidableEq

/-- Table `DEFAULT_TOKEN_BUDGETS` as the module defines it (lines 20-42). -/
def defaultBudgetTable : BudgetTable :=
  ⟨⟨500, 1000, 500, 1000, 3000⟩, ⟨1000, 2000, 1000, 4000, 8000⟩,
    ⟨2000, 3000, 2000, 8000, 15000⟩⟩

/-- The same prologue with the aliasing made explicit:
`token_budgets = DEFAULT_TOKEN_BUDGETS.get(detail_level, ...)` binds the
row object itself, so the in-place updates of lines 303-322 are written
back into the table (into the `standard` row when `detail_level` is not a
key).  Returns (table after the call, computed budgets). -/
def allocateSt (tbl : BudgetTable) (detail_level : String) (focus_area : Option String)
    (max_tokens : Nat) : BudgetTable × TokenBudgets :=
  let row :=
    if detail_level = "minimal" then tbl.minimal
    else if detail_level = "standard" then tbl.standard
    else if detail_level = "comprehensive" then tbl.comprehensive
    else tbl.standard
  let row' := capBudgets max_tokens (applyFocus focus_area row)
  let tbl' :=
    if detail_level = "minimal" then { tbl with minimal := row' }
    else if detail_level = "standard" then { tbl with standard := row' }
    else if detail_level = "comprehensive" then { tbl with comprehensive := row' }
    else { tbl with standard := row' }
  (tbl', row')

/-! ### Snapshots and context assembly (context_manager.py lines 150-349) -/

/-- Constant `SNAPSHOT_TYPE_PRIORITIES` (line 45). -/
def SNAPSHOT_TYPE_PRIORITIES : List String :=
  ["general", "architecture", "knowledge_graph", "workflow"]

/-- Lookup `IMPORTANT_SECTIONS.get(type, [])` (lines 48-53). -/
def importantSections (ty : String) : List Text :=
  if ty = "general" then
    [("Status Summary").toList, ("Active Components").toList, ("Current Challenges").toList]
  else if ty = "architecture" then
    [("Architecture Overview").toList, ("Component Structure").toList,
      ("Technical Decisions").toList]
  else if ty = "knowledge_graph" then
    [("Graph Schema").toList, ("Entity Types").toList, ("Relationship Types").toList]
  else if ty = "workflow" then
    [("User Workflows").toList, ("Data Processing Pipeline").toList,
      ("Note Management Procedures").toList]
  else []

/-- One `*.md` file under `snapshots/<type>/<level>/`. -/
structure SnapshotFile where
  path : String
  mtime : Nat
  content : Text
deriving DecidableEq

/-- The external state `load_project_context` reads: the three documents
(`None` when the file does not exist) and, for each (snapshot type,
hierarchy level) pair, the `*.md` files under its directory.  An absent
directory and an empty one both yield `[]` — `get_latest_snapshot`
returns the same result for both. -/
structure FileSystem where
  readme : Option Text
  architecture : Option Text
  glossary : Option Text
  snapshotFiles : String → String → List SnapshotFile

/-- The not-found message of `get_latest_snapshot` (lines 164, 169). -/
def noSnapshotsMsg (ty lv : String) : Text :=
  ("No snapshots found for type '" ++ ty ++ "' at level '" ++ lv ++ "'").toList

/-- Function `get_latest_snapshot` (lines 150-178): `(None, message)` when the
directory is missing or holds no `*.md` files, else the newest file by
mtime (Python `max` keeps the first maximal element) and its content. -/
def get_latest_snapshot (fs : FileSystem) (snapshot_type hierarchy_level : String) :
    Option String × Text :=
  match fs.snapshotFiles snapshot_type hierarchy_level with
  | [] => (none, noSnapshotsMsg snapshot_type hierarchy_level)
  | f :: rest =>
    let latest := rest.foldl (fun best g => if best.mtime < g.mtime then g else best) f
    (some latest.path, latest.content)

/-- Mapping `hierarchy_level_map.get(detail_level, "standard")` (lines 233-239). -/
def hierarchyLevel (detail_level : String) : String :=
  if detail_level = "minimal" then "summary"
  else if detail_level = "standard" then "standard"
  else if detail_level = "comprehensive" then "detailed"
  else "standard"

/-- One snapshot dict collected by `load_snapshots` (lines 248-253). -/
structure Snapshot where
  type : String
  path : String
  content : Text
  tokens : Nat
deriving DecidableEq

/-- The collection loop of `load_snapshots` (lines 244-253): a type whose
`get_latest_snapshot` path is `None` is skipped. -/
def collectSnapshots (fs : FileSystem) : List String → String → List Snapshot
  | [], _ => []
  | ty :: rest, lv =>
    match get_latest_snapshot fs ty lv with
    | (some p, c) => ⟨ty, p, c, estimate_tokens c⟩ :: collectSnapshots fs rest lv
    | (none, _) => collectSnapshots fs rest lv

/-- The sort key of line 256: index in `SNAPSHOT_TYPE_PRIORITIES`, 999
when absent. -/
def snapKey (s : Snapshot) : Nat :=
  if s.type ∈ SNAPSHOT_TYPE_PRIORITIES then SNAPSHOT_TYPE_PRIORITIES.indexOf s.type else 999

/-- Python `snapshots.sort(key=...)` (line 256): a stable ascending sort
whose key only takes the values 0, 1, 2, 3 and 999, hence equal to the
key-value buckets concatenated in ascending key order, each in original
order. -/
def pySortSnapshots (l : List Snapshot) : List Snapshot :=
  l.filter (fun s => snapKey s == 0) ++ l.filter (fun s => snapKey s == 1)
    ++ l.filter (fun s => snapKey s == 2) ++ l.filter (fun s => snapKey s == 3)
    ++ l.filter (fun s => snapKey s == 999)

/-- Python `str.capitalize()`: first character uppercased, the rest
lowercased. -/
def pyCapitalize (s : String) : String :=
  match s.data with
  | [] => ""
  | c :: rest => String.mk (c.toUpper :: rest.map Char.toLower)

/-- The `f"## {snapshot['type'].capitalize()} Snapshot\n\n"` header of
line 268. -/
def snapshotHeader (ty : String) : Text :=
  ("## " ++ pyCapitalize ty ++ " Snapshot\n\n").toList

/-- The formatting loop of `load_snapshots` (lines 259-285).  The running
budget is an `Int`: line 283 can drive it negative, and the next
iteration's `<= 0` check then breaks. -/
def formatSnapshots : List Snapshot → Text → Int → Text
  | [], res, _ => res
  | s :: rest, res, rem =>
    if rem ≤ 0 then res
    else
      let header := snapshotHeader s.type
      let ht : Int := (estimate_tokens header : Nat)
      if ht ≤ rem then
        let rem1 := rem - ht
        let tc := truncate_to_token_budget s.content rem1.toNat (importantSections s.type)
        formatSnapshots rest (res ++ header ++ tc ++ ("\n\n").toList)
          (rem1 - (estimate_tokens tc : Nat))
      else res

/-- Function `load_snapshots` (lines 216-285). -/
def load_snapshots (fs : FileSystem) (detail_level : String)
    (snapshot_types : Option (List String)) (token_budget : Nat) : Text :=
  let types := snapshot_types.getD SNAPSHOT_TYPE_PRIORITIES
  let snaps := collectSnapshots fs types (hierarchyLevel detail_level)
  formatSnapshots (pySortSnapshots snaps) (("# Project Snapshots\n\n").toList)
    (token_budget : Int)

/-- Function `load_readme` (lines 180-190). -/
def load_readme (fs : FileSystem) (token_budget : Nat) : Text :=
  match fs.readme with
  | none => ("README not found").toList
  | some content => truncate_to_token_budget content token_budget []

/-- Function `load_architecture` (lines 192-202). -/
def load_architecture (fs : FileSystem) (token_budget : Nat) : Text :=
  match fs.architecture with
  | none => ("Architecture document not found").toList
  | some content => truncate_to_token_budget content token_budget []

/-- Function `load_glossary` (lines 204-214). -/
def load_glossary (fs : FileSystem) (token_budget : Nat) : Text :=
  match fs.glossary with
  | none => ("Glossary not found").toList
  | some content => truncate_to_token_budget content token_budget []

/-- The focus-dependent snapshot type list of lines 341-344. -/
def focusSnapshotTypes (focus_area : Option String) : Option (List String) :=
  match focus_area with
  | none => none
  | some fa =>
    if fa ∈ SNAPSHOT_TYPE_PRIORITIES then
      some (fa :: SNAPSHOT_TYPE_PRIORITIES.filter (fun st => !(st == fa)))
    else none

/-- Function `load_project_context` (lines 287-349) for a single call on the
pristine default table.  `now` is the formatted
`datetime.datetime.now()` string of line 326, an external input. -/
def load_project_context (fs : FileSystem) (now : Text) (detail_level : String)
    (focus_area : Option String) (max_tokens : Nat) : Text :=
  let tb := allocate detail_level focus_area max_tokens
  ("# Notes Manager 2 Project Context\n\n").toList
    ++ ("*Context loaded at ").toList ++ now ++ ("*\n\n").toList
    ++ ("## Project Overview\n\n").toList ++ load_readme fs tb.readme ++ ("\n\n").toList
    ++ ("## Architecture\n\n").toList ++ load_architecture fs tb.architecture
    ++ ("\n\n").toList
    ++ ("## Glossary\n\n").toList ++ load_glossary fs tb.glossary ++ ("\n\n").toList
    ++ load_snapshots fs detail_level (focusSnapshotTypes focus_area) tb.snapshots

/-! ### Knowledge graph envelope functions (mcp_knowledge_graph.py) -/

/-- A Python value as it appears in the dicts these functions handle. -/
inductive Val where
  | bool : Bool → Val
  | nat : Nat → Val
  | str : String → Val
  | list : List Val → Val
  | dict : List (String × Val) → Val

/-- A Python dict with string keys, as an insertion-ordered key/value
list (the order Python preserves and `==` ignores; the functions below
only ever build each key once). -/
abbrev PyDict := List (String × Val)

/-- Python `key in d`. -/
def hasKey (d : PyDict) (k : String) : Bool :=
  d.any (fun p => p.1 == k)

/-- Python `d[k]` under a `k in d` guard (the functions below only read
keys they have checked; the default is never reached then). -/
def getKey (d : PyDict) (k : String) : Val :=
  match d.find? (fun p => p.1 == k) with
  | some p => p.2
  | none => Val.str ""

/-- Python `len` on the sized values these functions pass to it. -/
def pyLen (v : Val) : Nat :=
  match v with
  | Val.list l => l.length
  | Val.dict d => d.length
  | Val.str s => s.length
  | _ => 0

/-- Python `d.get(k, default)`. -/
def getKeyD (d : PyDict) (k : String) (default : Val) : Val :=
  match d.find? (fun p => p.1 == k) with
  | some p => p.2
  | none => default

/-- The required-fields test of `create_entities` (line 98). -/
def hasEntityFields (e : PyDict) : Bool :=
  hasKey e "name" && hasKey e "entityType" && hasKey e "observations"

/-- The formatting loop of `create_entities` (lines 95-106): build the
`formatted_entities` list, skipping entities that miss a required field. -/
def formattedEntities (entities : List PyDict) : List PyDict :=
  entities.foldl
    (fun acc e =>
      if hasEntityFields e then
        acc ++ [[("name", getKey e "name"), ("entityType", getKey e "entityType"),
          ("observations", getKey e "observations")]]
      else acc)
    ([] : List PyDict)

/-- Function `create_entities` (mcp_knowledge_graph.py lines 84-125): entities
missing a required field are skipped with a printed warning; the
response reports success and the count of formatted entities. -/
def create_entities (entities : List PyDict) : PyDict :=
  [("success", Val.bool true),
    ("entities_created", Val.nat (formattedEntities entities).length),
    ("message",
      Val.str ("Created " ++ toString (formattedEntities entities).length ++ " entities"))]

/-- Function `import_graph_snapshot` (mcp_knowledge_graph.py lines 336-371). -/
def import_graph_snapshot (snapshot : PyDict) : PyDict :=
  if !(hasKey snapshot "entities") || !(hasKey snapshot "relationships") then
    [("success", Val.bool false), ("error", Val.str "Invalid snapshot format")]
  else
    let ne := pyLen (getKeyD snapshot "entities" (Val.list []))
    let nr := pyLen (getKeyD snapshot "relationships" (Val.list []))
    [("success", Val.bool true),
      ("entities_imported", Val.nat ne),
      ("relationships_imported", Val.nat nr),
      ("message", Val.str "Graph snapshot imported successfully")]

/-! ### Helper lemmas -/

/-- Filtering one priority bucket with a different priority gives nothing. -/
theorem filter_priority_filter_ne (l : List MdSection) (i j : Nat) (h : i ≠ j) :
    (l.filter (fun s => s.priority == j)).filter (fun s => s.priority == i) = [] := by
  rw [List.filter_eq_nil_iff]
  intro s hs
  have hj : s.priority = j := by
    have := List.of_mem_filter hs
    simpa using this
  simp [hj]
  omega

/-- Filtering a bucket with its own priority is the identity. -/
theorem filter_priority_filter_self (l : List MdSection) (i : Nat) :
    (l.filter (fun s => s.priority == i)).filter (fun s => s.priority == i)
      = l.filter (fun s => s.priority == i) := by
  rw [List.filter_filter]
  simp

/-- The priority-2 bucket of the Python-sorted list is the priority-2
bucket of the original list, in original order. -/
theorem filter_pySort_two (l : List MdSection) :
    (pySortByPriorityDesc l).filter (fun s => s.priority == 2)
      = l.filter (fun s => s.priority == 2) := by
  unfold pySortByPriorityDesc
  rw [List.filter_append, List.filter_append, filter_priority_filter_self,
    filter_priority_filter_ne l 2 1 (by omega), filter_priority_filter_ne l 2 0 (by omega)]
  simp

/-- The priority-1 bucket of the Python-sorted list is the priority-1
bucket of the original list, in original order. -/
theorem filter_pySort_one (l : List MdSection) :
    (pySortByPriorityDesc l).filter (fun s => s.priority == 1)
      = l.filter (fun s => s.priority == 1) := by
  unfold pySortByPriorityDesc
  rw [List.filter_append, List.filter_append, filter_priority_filter_self,
    filter_priority_filter_ne l 1 2 (by omega), filter_priority_filter_ne l 1 0 (by omega)]
  simp

/-- The priority-0 bucket of the Python-sorted list is the priority-0
bucket of the original list, in original order. -/
theorem filter_pySort_zero (l : List MdSection) :
    (pySortByPriorityDesc l).filter (fun s => s.priority == 0)
      = l.filter (fun s => s.priority == 0) := by
  unfold pySortByPriorityDesc
  rw [List.filter_append, List.filter_append, filter_priority_filter_self,
    filter_priority_filter_ne l 0 2 (by omega), filter_priority_filter_ne l 0 1 (by omega)]
  simp

/-! ### Claim theorems: truncation -/

/-- C4: `truncate_to_token_budget` emits sections bucket by bucket —
all Preserved sections, then Normal, then the Preamble — two
equal-priority sections keeping their original document order (the
output coincides with the spec's sort-free bucket traversal on every
input); in particular, for a text with a preamble, a preserved section
"X" and a normal section and a budget that fits only "X", section "X"
appears in full before the truncated Normal content and no Preamble
content. -/
theorem truncate_bucket_priority_order :
    (∀ (text : Text) (budget : Nat) (preserve : List Text),
      truncate_to_token_budget text budget preserve
        = specTruncateByBuckets text budget preserve) ∧
    truncate_to_token_budget (("intro\n## X\n1234567\n## Y\nabcdefg").toList) 4
        [("X").toList]
      = ("## X\n1234567\n## Y").toList ++ sectionMarker := by
  constructor
  · intro text budget preserve
    unfold truncate_to_token_budget specTruncateByBuckets
    simp only [filter_pySort_two, filter_pySort_one, filter_pySort_zero]
  · decide

/-- C5: whenever the token estimate of `text` is within `budget`,
`truncate_to_token_budget` returns `text` unchanged, for any preserve
list. -/
theorem truncate_idempotent_within_budget (text : Text) (budget : Nat)
    (preserve : List Text) (h : estimate_tokens text ≤ budget) :
    truncate_to_token_budget text budget preserve = text := by
  unfold truncate_to_token_budget
  rw [if_pos h]

/-- Witness for C5 at a concrete input. -/
theorem truncate_idempotent_within_budget_witness :
    estimate_tokens (("hi there").toList) ≤ 5 ∧
      truncate_to_token_budget (("hi there").toList) 5 [("X").toList]
        = ("hi there").toList :=
  ⟨by decide, truncate_idempotent_within_budget (("hi there").toList) 5 [("X").toList]
    (by decide)⟩

/-- C6 counterexample: for the 8-character text `"aaaaaaaa"` and budget
1, the sectionless truncation emits a 4-character prefix plus the
41-character marker — 45 characters, longer than the input. -/
theorem truncate_length_counterexample :
    ¬ ((truncate_to_token_budget (("aaaaaaaa").toList) 1 []).length
        ≤ (("aaaaaaaa").toList).length) := by
  decide

/-! ### Length accounting for the amended C6 bound -/

/-- Total character count of the contents of a section list. -/
def contentSum (l : List MdSection) : Nat :=
  (l.map (fun s => s.content.length)).sum

theorem contentSum_nil : contentSum [] = 0 := rfl

theorem contentSum_cons (s : MdSection) (l : List MdSection) :
    contentSum (s :: l) = s.content.length + contentSum l := rfl

theorem sectionMarker_length : sectionMarker.length = 43 := rfl

theorem contentMarker_length : contentMarker.length = 41 := rfl

/-- One bucket pass grows the result by at most the bucket's content plus
one section marker. -/
theorem passBucket_length (secs : List MdSection) (res : Text) (rem : Nat) :
    (passBucket secs res rem).1.length ≤ res.length + contentSum secs + 43 := by
  induction secs generalizing res rem with
  | nil =>
    simp [passBucket, contentSum_nil]
  | cons s rest ih =>
    unfold passBucket
    by_cases h : estimate_tokens s.content ≤ rem
    · rw [if_pos h]
      have := ih (res ++ s.content) (rem - estimate_tokens s.content)
      simp only [List.length_append] at this
      rw [contentSum_cons]
      omega
    · rw [if_neg h]
      simp only [List.length_append, List.length_take]
      rw [contentSum_cons, sectionMarker_length]
      have : min (rem * 4) s.content.length ≤ s.content.length := Nat.min_le_right _ _
      omega

/-- A guarded pass grows the result by at most the bucket's content plus
one section marker. -/
theorem passOpt_length (l : List MdSection) (p : Text × Nat) :
    (passOpt l p).1.length ≤ p.1.length + contentSum l + 43 := by
  unfold passOpt
  by_cases h : p.2 > 0
  · rw [if_pos h]
    exact passBucket_length l p.1 p.2
  · rw [if_neg h]
    omega

/-- The three conditional passes grow an empty result by at most the
three buckets' contents plus three markers. -/
theorem threePasses_length (l2 l1 l0 : List MdSection) (budget : Nat) :
    (threePasses l2 l1 l0 budget).length
      ≤ contentSum l2 + contentSum l1 + contentSum l0 + 129 := by
  unfold threePasses
  have h2 := passBucket_length l2 [] budget
  have h1 := passOpt_length l1 (passBucket l2 [] budget)
  have h0 := passOpt_length l0 (passOpt l1 (passBucket l2 [] budget))
  simp only [List.length_nil] at h2
  omega

/-- Character accounting of Python's `split('\n')`: each line plus its
separator/terminator sums to the input length plus one. -/
theorem splitNl_length (l : Text) :
    (splitNl l).1.length + 1 + (((splitNl l).2).map (fun x => x.length + 1)).sum
      = l.length + 1 := by
  induction l with
  | nil => simp [splitNl]
  | cons c rest ih =>
    by_cases h : c = '\n'
    · simp only [splitNl, if_pos h, List.map_cons, List.sum_cons, List.length_cons,
        List.length_nil]
      omega
    · simp only [splitNl, if_neg h, List.length_cons]
      omega

/-- The sections reconstruct every line with a trailing newline: the
total content is the pending content plus (length + 1) per line. -/
theorem buildSections_contentSum (preserve : List Text) (lines : List Text)
    (cur : MdSection) :
    contentSum (buildSections preserve lines cur)
      = cur.content.length + (lines.map (fun x => x.length + 1)).sum := by
  induction lines generalizing cur with
  | nil => simp [buildSections, contentSum]
  | cons line rest ih =>
    unfold buildSections
    by_cases h : isHeaderLine line
    · rw [if_pos h, contentSum_cons, ih]
      simp only [List.length_append, List.length_cons, List.length_nil, List.map_cons,
        List.sum_cons]
      try omega
    · rw [if_neg h, ih]
      simp only [List.length_append, List.length_cons, List.length_nil, List.map_cons,
        List.sum_cons]
      try omega

/-- Splitting `text` into sections reconstructs exactly `text.length + 1`
characters of content (the final line also gets a newline). -/
theorem splitSections_contentSum (text : Text) (preserve : List Text) :
    contentSum (splitSections text preserve) = text.length + 1 := by
  unfold splitSections pySplitLines
  rw [buildSections_contentSum]
  simp only [List.map_cons, List.sum_cons, List.length_nil]
  have := splitNl_length text
  omega

/-- Every priority assigned by the splitting loop is the starting
accumulator's priority or one of the header priorities 1 and 2. -/
theorem buildSections_priority (preserve : List Text) (lines : List Text) :
    ∀ (cur s : MdSection), s ∈ buildSections preserve lines cur →
      s.priority = cur.priority ∨ s.priority = 1 ∨ s.priority = 2 := by
  induction lines with
  | nil =>
    intro cur s hs
    simp [buildSections] at hs
    subst hs
    left
    rfl
  | cons line rest ih =>
    intro cur s hs
    unfold buildSections at hs
    by_cases h : isHeaderLine line
    · rw [if_pos h] at hs
      rcases List.mem_cons.mp hs with h1 | h2
      · subst h1
        left
        rfl
      · rcases ih _ s h2 with h3 | h3
        · by_cases hm : pyStrip (line.drop 3) ∈ preserve <;> simp [hm] at h3 <;> omega
        · right
          exact h3
    · rw [if_neg h] at hs
      exact ih ⟨cur.title, cur.content ++ line ++ ['\n'], cur.priority⟩ s hs

/-- Every section produced by `splitSections` has priority 0, 1 or 2. -/
theorem splitSections_priority_le_two (text : Text) (preserve : List Text) :
    ∀ s ∈ splitSections text preserve, s.priority ≤ 2 := by
  intro s hs
  unfold splitSections at hs
  rcases buildSections_priority preserve (pySplitLines text) _ s hs with h | h | h
  · rw [h]
    decide
  · omega
  · omega

/-- When every priority is 0, 1 or 2, the three filtered buckets carry
exactly the whole content. -/
theorem bucket_contentSum (l : List MdSection) (hl : ∀ s ∈ l, s.priority ≤ 2) :
    contentSum (l.filter (fun s => s.priority == 2))
        + contentSum (l.filter (fun s => s.priority == 1))
        + contentSum (l.filter (fun s => s.priority == 0))
      = contentSum l := by
  induction l with
  | nil => simp [contentSum]
  | cons s rest ih =>
    have hs : s.priority ≤ 2 := hl s (List.mem_cons_self s rest)
    have hrest : ∀ t ∈ rest, t.priority ≤ 2 := fun t ht => hl t (List.mem_cons_of_mem s ht)
    have hih := ih hrest
    have hp : s.priority = 0 ∨ s.priority = 1 ∨ s.priority = 2 := by omega
    rcases hp with h | h | h
    · simp only [List.filter_cons, h]
      norm_num
      simp only [contentSum_cons]
      omega
    · simp only [List.filter_cons, h]
      norm_num
      simp only [contentSum_cons]
      omega
    · simp only [List.filter_cons, h]
      norm_num
      simp only [contentSum_cons]
      omega


/-- C6 amended: the output of `truncate_to_token_budget` can exceed the
input length by the truncation markers and the reconstructed trailing
newline, but never by more than 130 characters (`1 + 3 * 43`): for every
text, budget and preserve list,
`len(truncate(text, b, preserve)) <= len(text) + 130`. -/
theorem truncate_length_le_input_add_markers (text : Text) (budget : Nat)
    (preserve : List Text) :
    (truncate_to_token_budget text budget preserve).length ≤ text.length + 130 := by
  unfold truncate_to_token_budget
  by_cases h1 : estimate_tokens text ≤ budget
  · rw [if_pos h1]
    omega
  · rw [if_neg h1]
    by_cases h2 : preserve = []
    · rw [if_pos h2]
      simp only [List.length_append, List.length_take, contentMarker_length]
      have : min (budget * 4) text.length ≤ text.length := Nat.min_le_right _ _
      omega
    · rw [if_neg h2]
      simp only [filter_pySort_two, filter_pySort_one, filter_pySort_zero]
      have hb := threePasses_length
        ((splitSections text preserve).filter (fun s => s.priority == 2))
        ((splitSections text preserve).filter (fun s => s.priority == 1))
        ((splitSections text preserve).filter (fun s => s.priority == 0))
        budget
      have hsum := bucket_contentSum (splitSections text preserve)
        (splitSections_priority_le_two text preserve)
      have hlen := splitSections_contentSum text preserve
      omega

/-! ### Claim theorems: budget allocation -/

/-- Bound `a / n + b / n ≤ (a + b) / n` in `Nat`. -/
theorem nat_div_add_div_le (a b n : Nat) : a / n + b / n ≤ (a + b) / n :=
  Nat.add_div_le_add_div a b n

/-- The focus adjustment never touches the stored `total` field. -/
theorem applyFocus_total (focus_area : Option String) (b : TokenBudgets) :
    (applyFocus focus_area b).total = b.total := by
  unfold applyFocus
  match focus_area with
  | none => rfl
  | some fa =>
    by_cases h1 : fa = "general"
    · simp [h1]
    · by_cases h2 : fa = "architecture"
      · simp [h1, h2]
      · by_cases h3 : fa = "knowledge_graph" ∨ fa = "workflow" ∨ fa = "agent"
        · simp [h1, h2, h3]
        · simp [h1, h2, h3]

/-- Every row of the default table stores a positive `total`. -/
theorem defaultTokenBudgets_total_pos (detail_level : String) :
    0 < (defaultTokenBudgets detail_level).total := by
  unfold defaultTokenBudgets
  by_cases h1 : detail_level = "minimal"
  · simp [h1]
  · by_cases h2 : detail_level = "standard"
    · simp [h1, h2]
    · by_cases h3 : detail_level = "comprehensive"
      · simp [h1, h2, h3]
      · simp [h1, h2, h3]

/-- After capping, the four component allowances sum to at most
`max_tokens`, provided the stored `total` is positive. -/
theorem capBudgets_componentSum_le (max_tokens : Nat) (b : TokenBudgets)
    (htot : 0 < b.total) : componentSum (capBudgets max_tokens b) ≤ max_tokens := by
  unfold capBudgets
  by_cases h : max_tokens < valuesSum b
  · rw [if_pos h]
    have ht : 0 < valuesSum b := by
      unfold valuesSum
      omega
    unfold componentSum
    simp only
    have h1 : b.readme * max_tokens / valuesSum b + b.architecture * max_tokens / valuesSum b
        ≤ (b.readme * max_tokens + b.architecture * max_tokens) / valuesSum b :=
      nat_div_add_div_le _ _ _
    have h2 : (b.readme * max_tokens + b.architecture * max_tokens) / valuesSum b
          + b.glossary * max_tokens / valuesSum b
        ≤ (b.readme * max_tokens + b.architecture * max_tokens + b.glossary * max_tokens)
            / valuesSum b :=
      nat_div_add_div_le _ _ _
    have h3 : (b.readme * max_tokens + b.architecture * max_tokens + b.glossary * max_tokens)
            / valuesSum b + b.snapshots * max_tokens / valuesSum b
        ≤ (b.readme * max_tokens + b.architecture * max_tokens + b.glossary * max_tokens
            + b.snapshots * max_tokens) / valuesSum b :=
      nat_div_add_div_le _ _ _
    have hcomp : b.readme * max_tokens + b.architecture * max_tokens
          + b.glossary * max_tokens + b.snapshots * max_tokens
        = (b.readme + b.architecture + b.glossary + b.snapshots) * max_tokens := by
      ring
    have hle : (b.readme + b.architecture + b.glossary + b.snapshots) * max_tokens
        ≤ valuesSum b * max_tokens := by
      have : b.readme + b.architecture + b.glossary + b.snapshots ≤ valuesSum b := by
        unfold valuesSum
        omega
      exact Nat.mul_le_mul_right _ this
    have hdiv : (b.readme + b.architecture + b.glossary + b.snapshots) * max_tokens
          / valuesSum b ≤ valuesSum b * max_tokens / valuesSum b :=
      Nat.div_le_div_right hle
    have hcancel : valuesSum b * max_tokens / valuesSum b = max_tokens :=
      Nat.mul_div_cancel_left _ ht
    have hjr : (b.readme * max_tokens + b.architecture * max_tokens + b.glossary * max_tokens
          + b.snapshots * max_tokens) / valuesSum b
        = (b.readme + b.architecture + b.glossary + b.snapshots) * max_tokens
            / valuesSum b := by
      rw [hcomp]
    omega
  · rw [if_neg h]
    unfold componentSum valuesSum at *
    omega

/-- C1: for every detail level string, every focus area (including
none) and every positive `max_tokens`, the component budgets computed by
the budget-adjustment prologue of `load_project_context` satisfy
`readme + architecture + glossary + snapshots ≤ max_tokens` after the
capping step. -/
theorem allocate_componentSum_le_max (detail_level : String) (focus_area : Option String)
    (max_tokens : Nat) (hpos : 0 < max_tokens) :
    componentSum (allocate detail_level focus_area max_tokens) ≤ max_tokens := by
  unfold allocate
  apply capBudgets_componentSum_le
  rw [applyFocus_total]
  exact defaultTokenBudgets_total_pos detail_level

/-- Witness for C1 at a concrete input. -/
theorem allocate_componentSum_le_max_witness :
    0 < 4000 ∧ componentSum (allocate "standard" (some "architecture") 4000) ≤ 4000 :=
  ⟨by decide, allocate_componentSum_le_max "standard" (some "architecture") 4000 (by decide)⟩

/-- C2 counterexample: for detail `"standard"`, no focus area and
`max_tokens = 4000`, the code scales by `4000 / 16000 = 0.25` — the
five-field `sum(token_budgets.values())` includes the stored total — so
the budgets are `(250, 500, 250, 1000, 4000)`, not the claimed
`(500, 1000, 500, 2000, 4000)`. -/
theorem allocate_standard_4000_counterexample :
    allocate "standard" none 4000 = ⟨250, 500, 250, 1000, 4000⟩ ∧
      allocate "standard" none 4000 ≠ ⟨500, 1000, 500, 2000, 4000⟩ := by
  constructor
  · decide
  · decide

/-- C2 amended: the capping decision and scale factor are computed from
the sum of all five stored fields including `total`; for detail
`"standard"`, no focus area and `max_tokens = 4000` that sum is 16000,
every component allowance is scaled by `4000 / 16000` with truncation
(readme 250, architecture 500, glossary 250, snapshots 1000) and the
`total` field is set to exactly 4000. -/
theorem allocate_cap_includes_total :
    valuesSum (applyFocus none (defaultTokenBudgets "standard")) = 16000 ∧
      4000 < 16000 ∧
      allocate "standard" none 4000 = ⟨250, 500, 250, 1000, 4000⟩ := by
  refine ⟨by decide, by decide, by decide⟩

/-- C3: the budget prologue mutates the module-level default table
through the alias returned by `DEFAULT_TOKEN_BUDGETS.get`, so a call
with a focus area rewrites the `"standard"` row, and a second identical
call computes different component budgets — the code is not stateless
across calls. -/
theorem load_project_context_mutates_defaults :
    (allocateSt defaultBudgetTable "standard" (some "architecture") 8000).1
        ≠ defaultBudgetTable ∧
      (allocateSt (allocateSt defaultBudgetTable "standard" (some "architecture") 8000).1
          "standard" (some "architecture") 8000).2
        ≠ (allocateSt defaultBudgetTable "standard" (some "architecture") 8000).2 := by
  constructor
  · decide
  · decide

/-! ### Claim theorems: snapshots and assembly -/

/-- Unfolding equation for the collection loop on a nonempty type list. -/
theorem collectSnapshots_cons (fs : FileSystem) (t lv : String) (ts : List String) :
    collectSnapshots fs (t :: ts) lv
      = match get_latest_snapshot fs t lv with
        | (some p, c) => ⟨t, p, c, estimate_tokens c⟩ :: collectSnapshots fs ts lv
        | (none, _) => collectSnapshots fs ts lv := rfl

/-- A snapshot type with no files contributes nothing to the collection
loop: collecting over a type list equals collecting with that type
filtered out. -/
theorem collectSnapshots_skip (fs : FileSystem) (ty lv : String)
    (h : fs.snapshotFiles ty lv = []) (types : List String) :
    collectSnapshots fs types lv
      = collectSnapshots fs (types.filter (fun t => !(t == ty))) lv := by
  induction types with
  | nil => rfl
  | cons t ts ih =>
    rw [List.filter_cons]
    by_cases heq : t = ty
    · subst heq
      have hg : get_latest_snapshot fs t lv = (none, noSnapshotsMsg t lv) := by
        unfold get_latest_snapshot
        rw [h]
      have hcond : (!(t == t)) = false := by simp
      simp only [hcond, Bool.false_eq_true, if_false]
      rw [collectSnapshots_cons, hg]
      exact ih
    · have hcond : (!(t == ty)) = true := by simp [heq]
      simp only [hcond, if_true]
      rw [collectSnapshots_cons, collectSnapshots_cons]
      rcases hop : get_latest_snapshot fs t lv with ⟨op, c⟩
      cases op
      · exact ih
      · rw [ih]

/-- C7: for a (snapshot type, hierarchy level) pair with no snapshot
files under its directory, `get_latest_snapshot` returns a `None` path
with a not-found message rather than an exception, and `load_snapshots`
assembles the same output as if the type had not been requested at all —
the missing snapshot type is omitted without error. -/
theorem missing_snapshot_omitted (fs : FileSystem) (ty dl : String)
    (types : List String) (budget : Nat)
    (h : fs.snapshotFiles ty (hierarchyLevel dl) = []) :
    get_latest_snapshot fs ty (hierarchyLevel dl)
        = (none, noSnapshotsMsg ty (hierarchyLevel dl)) ∧
      load_snapshots fs dl (some types) budget
        = load_snapshots fs dl (some (types.filter (fun t => !(t == ty)))) budget := by
  constructor
  · unfold get_latest_snapshot
    rw [h]
  · unfold load_snapshots
    simp only [Option.getD_some]
    rw [collectSnapshots_skip fs ty (hierarchyLevel dl) h types]

/-- The empty project state: no documents, no snapshot files anywhere. -/
def fsEmpty : FileSystem :=
  { readme := none, architecture := none, glossary := none, snapshotFiles := fun _ _ => [] }

/-- Witness for C7 at a concrete input: the `("workflow", "summary")`
pair of the empty project, requested through detail level `"minimal"`. -/
theorem missing_snapshot_omitted_witness :
    fsEmpty.snapshotFiles "workflow" (hierarchyLevel "minimal") = [] ∧
      (get_latest_snapshot fsEmpty "workflow" (hierarchyLevel "minimal")
          = (none, noSnapshotsMsg "workflow" (hierarchyLevel "minimal")) ∧
        load_snapshots fsEmpty "minimal" (some SNAPSHOT_TYPE_PRIORITIES) 1000
          = load_snapshots fsEmpty "minimal"
              (some (SNAPSHOT_TYPE_PRIORITIES.filter (fun t => !(t == "workflow")))) 1000) :=
  ⟨rfl, missing_snapshot_omitted fsEmpty "workflow" "minimal" SNAPSHOT_TYPE_PRIORITIES 1000 rfl⟩

/-- A small concrete project: three non-empty documents, no snapshots. -/
def fsDemo : FileSystem :=
  { readme := some (("hello world!").toList)
    architecture := some (("hello world!").toList)
    glossary := some (("hello world!").toList)
    snapshotFiles := fun _ _ => [] }

set_option maxRecDepth 4000 in
/-- C8: `max_tokens` does not bound the assembled document — with
`max_tokens = 1` and non-empty readme, architecture and glossary files,
the token estimate of the text returned by `load_project_context`
exceeds 1, because the fixed section headers, the timestamp line and the
truncation markers are never charged against any component budget. -/
theorem load_project_context_exceeds_max_tokens :
    1 < estimate_tokens (load_project_context fsDemo
        (("2026-10-12 00:00:00").toList) "standard" none 1) := by
  decide

/-! ### Claim theorems: knowledge graph envelopes -/

/-- A conditional-append fold counts exactly the elements passing the
test. -/
theorem foldl_append_if_length {α β : Type} (p : α → Bool) (f : α → β) :
    ∀ (es : List α) (acc : List β),
      (es.foldl (fun a e => if p e then a ++ [f e] else a) acc).length
        = acc.length + (es.filter p).length := by
  intro es
  induction es with
  | nil =>
    intro acc
    simp
  | cons e rest ih =>
    intro acc
    simp only [List.foldl_cons, List.filter_cons]
    by_cases h : p e
    · simp only [h, if_true, ih]
      simp
      omega
    · simp only [h, Bool.false_eq_true, if_false, ih]

/-- The formatted-entity count is the number of entities that carry all
three required fields. -/
theorem formattedEntities_length (entities : List PyDict) :
    (formattedEntities entities).length = (entities.filter hasEntityFields).length := by
  unfold formattedEntities
  rw [foldl_append_if_length]
  simp

/-- C9 counterexample: for the input `[{}]` — one entity missing every
required field — `create_entities` reports `success = True` (with the
entity silently skipped), not the `success = false` envelope the claim
requires. -/
theorem create_entities_invalid_counterexample :
    (create_entities [[]]).lookup "success" = some (Val.bool true) ∧
      Val.bool true ≠ Val.bool false := by
  refine ⟨rfl, ?_⟩
  simp

/-- C9 amended: for every input list, `create_entities` returns a
success envelope — `success = True`, no `error` key — whose
`entities_created` counts exactly the entities carrying all of `name`,
`entityType` and `observations`; entities missing a required field are
skipped, not reported as a failure. -/
theorem create_entities_skips_invalid (entities : List PyDict) :
    (create_entities entities).lookup "success" = some (Val.bool true) ∧
      (create_entities entities).lookup "entities_created"
        = some (Val.nat ((entities.filter hasEntityFields).length)) ∧
      (create_entities entities).lookup "error" = none := by
  unfold create_entities
  rw [formattedEntities_length]
  exact ⟨rfl, rfl, rfl⟩

/-- C10: for every snapshot dict missing the `entities` key or the
`relationships` key, `import_graph_snapshot` returns exactly
`{success: False, error: "Invalid snapshot format"}` — the validation
branch returns before anything is imported. -/
theorem import_graph_snapshot_invalid (snapshot : PyDict)
    (h : hasKey snapshot "entities" = false ∨ hasKey snapshot "relationships" = false) :
    import_graph_snapshot snapshot
      = [("success", Val.bool false), ("error", Val.str "Invalid snapshot format")] := by
  unfold import_graph_snapshot
  rcases h with h | h
  · rw [h]
    simp
  · rw [h]
    simp

/-- Witness for C10 at the empty dict. -/
theorem import_graph_snapshot_invalid_witness :
    hasKey ([] : PyDict) "entities" = false ∧
      import_graph_snapshot []
        = [("success", Val.bool false), ("error", Val.str "Invalid snapshot format")] :=
  ⟨rfl, import_graph_snapshot_invalid [] (Or.inl rfl)⟩

end NotesMgr
